import Mathlib

/-
Verification of the legal-document-manager repository.

The embedding models document text as lists of characters.  JavaScript
strings become `Str`, `new Date()` timestamps become explicit `Nat`
parameters threaded into each operation that reads the clock, JS objects
used as ordered string-keyed maps become association lists, and thrown
errors become `Except`.  Floating-point arithmetic in the readability
formula is modelled with exact rationals.
-/

abbrev Str := List Char

def str (s : String) : Str := s.data

/-- ASCII lower-casing of one character, the effect of JS toLowerCase on
the ASCII texts handled here. -/
def toLow (c : Char) : Char :=
  if 'A' ≤ c ∧ c ≤ 'Z' then Char.ofNat (c.toNat + 32) else c

def lowerS (s : Str) : Str := s.map toLow

/-- Does the text start with the pattern, first argument the text. -/
def startsWithStr : Str → Str → Bool
  | _, [] => true
  | [], _ :: _ => false
  | c :: cs, p :: ps => c == p && startsWithStr cs ps

/-- JS String.prototype.includes: does the text contain the pattern as a
contiguous substring. -/
def hasSubstr : Str → Str → Bool
  | [], pat => pat.isEmpty
  | c :: cs, pat => startsWithStr (c :: cs) pat || hasSubstr cs pat

/-- JS split on a single-character class such as /[.!?]/ or a literal
separator character: every separator occurrence cuts the string, and
empty segments are kept. -/
def splitOnPred (p : Char → Bool) : Str → List Str
  | [] => [[]]
  | c :: cs =>
    if p c then [] :: splitOnPred p cs
    else
      match splitOnPred p cs with
      | [] => [[c]]
      | s :: ss => (c :: s) :: ss

/-- Fueled worker for `splitRuns`; the fuel bounds the recursion depth and
is never exhausted when it starts at the length of the string plus one. -/
def splitRunsF (p : Char → Bool) : Nat → Str → List Str
  | 0, s => [s]
  | fuel + 1, s =>
    let seg := s.takeWhile (fun c => !(p c))
    let rest := s.dropWhile (fun c => !(p c))
    match rest with
    | [] => [seg]
    | _ :: rTail => seg :: splitRunsF p fuel (rTail.dropWhile p)

/-- JS split on a one-or-more character class such as /\s+/: each maximal
run of separator characters cuts the string once, so interior empty
segments never appear, while a leading or trailing run still produces an
empty first or last segment. -/
def splitRuns (p : Char → Bool) (s : Str) : List Str :=
  splitRunsF p (s.length + 1) s

/-- JS String.prototype.trim. -/
def trimStr (s : Str) : Str :=
  ((s.dropWhile Char.isWhitespace).reverse.dropWhile Char.isWhitespace).reverse

/-- Word character for the JS regex word-boundary assertion. -/
def wordChar (c : Char) : Bool :=
  ('a' ≤ c && c ≤ 'z') || ('A' ≤ c && c ≤ 'Z') || ('0' ≤ c && c ≤ '9') || c == '_'

/-- A position just outside a match satisfies the boundary test when the
character there, if any, is not a word character. -/
def boundaryOk : Option Char → Bool
  | none => true
  | some c => !(wordChar c)

/-- Does the pattern occur at offset i of the text with a word boundary on
both sides. -/
def matchWWAt (text pat : Str) (i : Nat) : Bool :=
  startsWithStr (text.drop i) pat
    && (i == 0 || boundaryOk ((text.drop (i - 1)).head?))
    && boundaryOk ((text.drop (i + pat.length)).head?)

/-- Fueled left-to-right global scan: after a hit the scan resumes right
behind the match, as the JS g-flagged regex does via lastIndex. -/
def countWWFrom (text pat : Str) : Nat → Nat → Nat
  | 0, _ => 0
  | fuel + 1, i =>
    if text.length < i + pat.length then 0
    else if matchWWAt text pat i then 1 + countWWFrom text pat fuel (i + pat.length)
    else countWWFrom text pat fuel (i + 1)

/-- Source `_countOccurrences`: the number of matches of the g-flagged
word-boundary regex built from the word.  The analyzer only ever calls it
with the fixed non-empty legal terms, so the empty-pattern guard is
unreachable. -/
def countOccurrences (text word : Str) : Nat :=
  if word.isEmpty then 0 else countWWFrom text word (text.length + 1) 0

def isVowel (c : Char) : Bool :=
  c == 'a' || c == 'e' || c == 'i' || c == 'o' || c == 'u' ||
  c == 'A' || c == 'E' || c == 'I' || c == 'O' || c == 'U'

/-- Source `_estimateSyllables`: the number of matches of the g-flagged
regex matching one or two consecutive vowels, scanning greedily. -/
def estimateSyllables : Str → Nat
  | [] => 0
  | [c] => if isVowel c then 1 else 0
  | c :: d :: rest =>
    if isVowel c then 1 + estimateSyllables rest
    else estimateSyllables (d :: rest)

/-- JS Math.round on a non-negative value: floor after adding one half. -/
def jsRound (q : ℚ) : ℤ := ⌊q + 1 / 2⌋

/-- First occurrences kept, later duplicates dropped: the list a JS Set
built from the list enumerates. -/
def dedupFirst (seen : List Str) : List Str → List Str
  | [] => []
  | x :: xs => if x ∈ seen then dedupFirst seen xs else x :: dedupFirst (x :: seen) xs

/-- Association-list lookup, the JS own-property read on the object maps
used by the generator, the case store and the facade. -/
def lookupA {α : Type} : List (Str × α) → Str → Option α
  | [], _ => none
  | kv :: rest, k => if kv.1 = k then some kv.2 else lookupA rest k

/-
The data model.  Fields mirror the JS records; timestamps are the `Nat`
instants at which the corresponding `new Date()` calls were made.
-/

structure DocSection where
  heading : Str
  content : Str
  timestamp : Nat
deriving DecidableEq, Repr, Inhabited

structure DocContent where
  title : Str
  sections : List (Str × DocSection)
deriving DecidableEq, Repr, Inhabited

structure Metadata where
  created : Nat
  modified : Nat
  author : Str
  status : Str
deriving DecidableEq, Repr, Inhabited

structure Template where
  title : Str
  sections : List Str
deriving DecidableEq, Repr, Inhabited

structure Document where
  id : Str
  name : Str
  type : Str
  caseId : Option Str
  template : Template
  content : DocContent
  metadata : Metadata
  version : Nat
  tags : List Str
  analysis : Bool
deriving DecidableEq, Repr, Inhabited

structure Summary where
  text : Str
  wordCount : Nat
  sentenceCount : Nat
  characterCount : Nat
deriving DecidableEq, Repr

structure KeyPoint where
  category : Str
  text : Str
  importance : Str
deriving DecidableEq, Repr

structure TermCount where
  term : Str
  occurrences : Nat
deriving DecidableEq, Repr

structure SectionStat where
  name : Str
  wordCount : Nat
  isEmpty : Bool
deriving DecidableEq, Repr

structure StructureReport where
  totalSections : Nat
  sections : List SectionStat
deriving DecidableEq, Repr

structure Sentiment where
  overall : Str
  positiveIndicators : Nat
  negativeIndicators : Nat
deriving DecidableEq, Repr

structure Risk where
  type : Str
  severity : Str
  description : Str
deriving DecidableEq, Repr

structure Recommendation where
  priority : Str
  text : Str
deriving DecidableEq, Repr

structure Readability where
  score : ℤ
  difficulty : Str
  wordCount : Nat
  sentenceCount : Nat
deriving DecidableEq, Repr

structure AnalysisResult where
  documentId : Str
  documentType : Str
  analyzedAt : Nat
  summary : Summary
  keyPoints : List KeyPoint
  legalTerms : List TermCount
  sections : StructureReport
  sentiment : Sentiment
  risks : List Risk
  recommendations : List Recommendation
  readability : Readability
deriving DecidableEq, Repr

structure Similarities where
  commonWords : Nat
  commonTerms : List Str
deriving DecidableEq, Repr

structure Differences where
  lengthDifference : Nat
  wordCountDifference : Nat
deriving DecidableEq, Repr

structure StructuralDifferences where
  doc1Sections : Nat
  doc2Sections : Nat
deriving DecidableEq, Repr

structure ComparisonResult where
  similarities : Similarities
  differences : Differences
  structuralDifferences : StructuralDifferences
deriving DecidableEq, Repr

/-
Document analyzer, translated from the DocumentAnalyzer class.
-/

/-- The fixed keyword taxonomy of the analyzer constructor, in source
order. -/
def legalKeywords : List (Str × List Str) :=
  [ (str (r"obligations"), [str (r"must"), str (r"shall"), str (r"required to"), str (r"obligated to")]),
    (str (r"rights"), [str (r"may"), str (r"entitled to"), str (r"has the right to"), str (r"can")]),
    (str (r"penalties"), [str (r"penalty"), str (r"fine"), str (r"breach"), str (r"violation"), str (r"damages")]),
    (str (r"dates"), [str (r"on or before"), str (r"within"), str (r"by"), str (r"effective date"), str (r"expiration")]),
    (str (r"parties"), [str (r"party"), str (r"parties"), str (r"hereinafter"), str (r"referred to as")]) ]

/-- Source `_extractAllText`: the title followed by every section content,
each preceded by one space. -/
def extractAllText (d : Document) : Str :=
  d.content.sections.foldl (fun t kv => t ++ [' '] ++ kv.2.content) d.content.title

/-- Source `_generateSummary`. -/
def generateSummary (d : Document) : Summary :=
  let contentText := extractAllText d
  let sentences := (splitOnPred (fun c => c == '.') contentText).filter
    (fun s => !(trimStr s).isEmpty)
  { text := List.intercalate (str (r". ")) (sentences.take 3),
    wordCount := (splitRuns Char.isWhitespace contentText).length,
    sentenceCount := sentences.length,
    characterCount := contentText.length }

/-- One pass of the innermost keyword loop of `_extractKeyPoints`: the
points pushed for one sentence and one keyword list. -/
def keywordHits (category : Str) (keywords : List Str) (sentence : Str) : List KeyPoint :=
  keywords.foldl
    (fun acc keyword =>
      acc ++ (if hasSubstr (lowerS sentence) keyword then
        [{ category := category, text := trimStr sentence, importance := str (r"high") }]
      else []))
    []

/-- The points pushed for one sentence across the whole taxonomy, middle
loop of `_extractKeyPoints`. -/
def sentenceHits (sentence : Str) : List KeyPoint :=
  legalKeywords.foldl (fun acc ck => acc ++ keywordHits ck.1 ck.2 sentence) []

/-- Source `_extractKeyPoints`: push a point for every
(sentence, category, keyword) hit in scan order, then slice to 10. -/
def extractKeyPoints (d : Document) : List KeyPoint :=
  let sentences := splitOnPred (fun c => c == '.') (extractAllText d)
  (sentences.foldl (fun acc s => acc ++ sentenceHits s) []).take 10

/-- The fixed legal-term list of `_extractLegalTerms`, in source order. -/
def commonLegalTerms : List Str :=
  [ str (r"agreement"), str (r"contract"), str (r"party"), str (r"obligation"), str (r"breach"),
    str (r"indemnify"), str (r"liability"), str (r"damages"), str (r"force majeure"),
    str (r"arbitration"), str (r"governing law"), str (r"jurisdiction"),
    str (r"entire agreement"), str (r"amendment"), str (r"severability") ]

/-- Stable insertion into a list already sorted by descending occurrence
count: the element goes behind every earlier element whose count is not
smaller, which is what a stable JS sort with comparator
b.occurrences - a.occurrences produces. -/
def insertTC (x : TermCount) : List TermCount → List TermCount
  | [] => [x]
  | y :: ys =>
    if x.occurrences < y.occurrences then y :: insertTC x ys
    else x :: y :: ys

/-- Stable sort by descending occurrence count. -/
def sortTC : List TermCount → List TermCount
  | [] => []
  | x :: xs => insertTC x (sortTC xs)

/-- Source `_extractLegalTerms`: push an entry for every term contained in
the lower-cased text as a substring, with the word-boundary occurrence
count, then sort descending by count. -/
def extractLegalTerms (d : Document) : List TermCount :=
  let contentText := lowerS (extractAllText d)
  let foundTerms := commonLegalTerms.foldl
    (fun acc term =>
      acc ++ (if hasSubstr contentText term then
        [{ term := term, occurrences := countOccurrences contentText term }]
      else []))
    []
  sortTC foundTerms

/-- Source `_analyzeStructure`. -/
def analyzeStructure (d : Document) : StructureReport :=
  { totalSections := d.content.sections.length,
    sections := d.content.sections.map (fun kv =>
      { name := kv.2.heading,
        wordCount := (splitRuns Char.isWhitespace kv.2.content).length,
        isEmpty := hasSubstr kv.2.content (str (r"[Add")) && hasSubstr kv.2.content (str (r"here]")) }) }

def positiveWords : List Str :=
  [str (r"agree"), str (r"beneficial"), str (r"clear"), str (r"fair"), str (r"reasonable")]

def negativeWords : List Str :=
  [str (r"breach"), str (r"liable"), str (r"penalty"), str (r"violation"), str (r"dispute")]

/-- Source `_analyzeSentiment`: each indicator list is filtered down to
the words contained in the lower-cased text and the filtered lengths are
compared. -/
def analyzeSentiment (d : Document) : Sentiment :=
  let contentText := lowerS (extractAllText d)
  let positiveCount := (positiveWords.filter (fun word => hasSubstr contentText word)).length
  let negativeCount := (negativeWords.filter (fun word => hasSubstr contentText word)).length
  { overall :=
      if negativeCount < positiveCount then str (r"positive")
      else if positiveCount < negativeCount then str (r"negative")
      else str (r"neutral"),
    positiveIndicators := positiveCount,
    negativeIndicators := negativeCount }

/-- Source `_identifyRisks`: three checks in fixed order. -/
def identifyRisks (d : Document) : List Risk :=
  let contentText := extractAllText d
  (if hasSubstr contentText (str (r"[Add")) && hasSubstr contentText (str (r"here]")) then
    [{ type := str (r"incomplete_content"), severity := str (r"high"),
       description := str (r"Document contains placeholder text that needs to be filled") }]
  else []) ++
  (if hasSubstr (lowerS contentText) (str (r"liable")) then
    [{ type := str (r"liability_clause"), severity := str (r"medium"),
       description := str (r"Document contains liability provisions") }]
  else []) ++
  (if hasSubstr (lowerS contentText) (str (r"may")) then
    [{ type := str (r"ambiguous_language"), severity := str (r"low"),
       description := str (r"Document contains optional language (may)") }]
  else [])

/-- Source `_generateRecommendations`: JS tests the author field for
falsiness, which for the string-typed field means emptiness. -/
def generateRecommendations (d : Document) : List Recommendation :=
  (if d.metadata.status = str (r"draft") then
    [{ priority := str (r"high"),
       text := str (r"Document is still in draft status. Review and finalize before use.") }]
  else []) ++
  (if d.metadata.author.isEmpty || d.metadata.author = str (r"System") then
    [{ priority := str (r"medium"), text := str (r"Assign proper author to document") }]
  else []) ++
  (if !d.analysis then
    [{ priority := str (r"medium"), text := str (r"Run full legal analysis for comprehensive review") }]
  else [])

def wordsOf (d : Document) : Nat :=
  (splitRuns Char.isWhitespace (extractAllText d)).length

def sentencesOf (d : Document) : Nat :=
  (splitOnPred (fun c => c == '.' || c == '!' || c == '?') (extractAllText d)).length

def syllablesOf (d : Document) : Nat :=
  estimateSyllables (extractAllText d)

/-- The clamped Flesch-style reading ease of `_calculateReadability`,
before rounding. -/
def readingEaseOf (d : Document) : ℚ :=
  max 0 (min 100
    (206835 / 1000 - 1015 / 1000 * ((wordsOf d : ℚ) / (sentencesOf d : ℚ))
      - 846 / 10 * ((syllablesOf d : ℚ) / (wordsOf d : ℚ))))

/-- Source `_calculateReadability`. -/
def calculateReadability (d : Document) : Readability :=
  { score := jsRound (readingEaseOf d),
    difficulty :=
      if 80 < readingEaseOf d then str (r"Easy")
      else if 50 < readingEaseOf d then str (r"Medium")
      else if 30 < readingEaseOf d then str (r"Difficult")
      else str (r"Very Difficult"),
    wordCount := wordsOf d,
    sentenceCount := sentencesOf d }

/-- Source `analyze`: assembles every sub-analysis; the `now` parameter is
the instant of the `new Date()` call recorded in `analyzedAt`.  All
sub-analyses are total on the typed model, so the catch-and-rethrow
wrapper has nothing to catch. -/
def analyze (now : Nat) (d : Document) : AnalysisResult :=
  { documentId := d.id,
    documentType := d.type,
    analyzedAt := now,
    summary := generateSummary d,
    keyPoints := extractKeyPoints d,
    legalTerms := extractLegalTerms d,
    sections := analyzeStructure d,
    sentiment := analyzeSentiment d,
    risks := identifyRisks d,
    recommendations := generateRecommendations d,
    readability := calculateReadability d }

/-- Source `_findSimilarities`: the spread of the Set built from the first
token list, filtered by membership in the second token set. -/
def findSimilarities (d1 d2 : Document) : Similarities :=
  let text1 := lowerS (extractAllText d1)
  let text2 := lowerS (extractAllText d2)
  let words1 := dedupFirst [] (splitRuns Char.isWhitespace text1)
  let words2 := splitRuns Char.isWhitespace text2
  let common := words1.filter (fun word => decide (word ∈ words2))
  { commonWords := common.length, commonTerms := common.take 20 }

/-- Source `_findDifferences`. -/
def findDifferences (d1 d2 : Document) : Differences :=
  let text1 := lowerS (extractAllText d1)
  let text2 := lowerS (extractAllText d2)
  { lengthDifference := ((text1.length : ℤ) - (text2.length : ℤ)).natAbs,
    wordCountDifference :=
      (((splitRuns Char.isWhitespace text1).length : ℤ)
        - ((splitRuns Char.isWhitespace text2).length : ℤ)).natAbs }

/-- Source `_compareStructure`. -/
def compareStructure (d1 d2 : Document) : StructuralDifferences :=
  { doc1Sections := d1.content.sections.length,
    doc2Sections := d2.content.sections.length }

/-- Source `comparDocuments` (name kept as spelt in the source). -/
def comparDocuments (d1 d2 : Document) : ComparisonResult :=
  { similarities := findSimilarities d1 d2,
    differences := findDifferences d1 d2,
    structuralDifferences := compareStructure d1 d2 }

/-
Document generator, translated from the DocumentGenerator class.
-/

/-- The fixed template registry of the generator constructor. -/
def templates : List (Str × Template) :=
  [ (str (r"contract"),
     { title := str (r"Legal Contract"),
       sections := [str (r"Header"), str (r"Parties"), str (r"Terms"), str (r"Conditions"), str (r"Signatures")] }),
    (str (r"brief"),
     { title := str (r"Legal Brief"),
       sections := [str (r"Title"), str (r"Statement of Facts"), str (r"Legal Issues"), str (r"Arguments"), str (r"Conclusion")] }),
    (str (r"memo"),
     { title := str (r"Legal Memorandum"),
       sections := [str (r"To"), str (r"From"), str (r"Date"), str (r"Subject"), str (r"Issue"), str (r"Analysis"), str (r"Conclusion")] }),
    (str (r"complaint"),
     { title := str (r"Legal Complaint"),
       sections := [str (r"Heading"), str (r"Introduction"), str (r"Jurisdiction"), str (r"Parties"), str (r"Facts"), str (r"Claims"), str (r"Prayer for Relief")] }),
    (str (r"agreement"),
     { title := str (r"Agreement"),
       sections := [str (r"Preamble"), str (r"Recitals"), str (r"Terms and Conditions"), str (r"Signatures")] }) ]

/-- The caller-supplied content object of `generate`: an optional title,
author and tag list plus per-section overrides looked up by section
name. -/
structure ContentInput where
  title : Option Str
  author : Option Str
  tags : Option (List Str)
  sectionContent : List (Str × Str)
deriving DecidableEq, Repr, Inhabited

/-- An empty content object, the default of the destructuring in
`generate`. -/
def emptyContent : ContentInput :=
  { title := none, author := none, tags := none, sectionContent := [] }

/-- JS `value || fallback` on a string-valued optional field: an absent or
empty string falls through to the fallback. -/
def jsOrStr (o : Option Str) (fallback : Str) : Str :=
  match o with
  | none => fallback
  | some s => if s.isEmpty then fallback else s

/-- Source `_generateContent`: every template section gets the supplied
override or the placeholder embedding the section name. -/
def generateContent (now : Nat) (template : Template) (contentData : ContentInput) : DocContent :=
  { title := jsOrStr contentData.title template.title,
    sections := template.sections.map (fun sec =>
      (sec,
       { heading := sec,
         content := jsOrStr (lookupA contentData.sectionContent sec)
           (str (r"[Add ") ++ sec ++ str (r" content here]")),
         timestamp := now })) }

structure GenOptions where
  caseId : Option Str
  documentType : Option Str
  content : ContentInput
  timestamp : Nat
deriving Repr

/-- The document-name timestamp suffix produced by the moment format
call: some fixed rendering of the instant. -/
def momentFmt (t : Nat) : Str := Nat.toDigits 10 t

/-- Source `generate`: option destructuring applies the default type
memo, an unknown type throws, otherwise a fresh document is built.  The
fresh uuid is the `newId` parameter. -/
def generate (newId : Str) (opts : GenOptions) : Except Str Document :=
  let documentType := opts.documentType.getD (str (r"memo"))
  match lookupA templates documentType with
  | none => Except.error (str (r"Unknown document type: ") ++ documentType)
  | some template =>
    Except.ok
      { id := newId,
        name := template.title ++ ['_'] ++ momentFmt opts.timestamp,
        type := documentType,
        caseId := opts.caseId,
        template := template,
        content := generateContent opts.timestamp template opts.content,
        metadata :=
          { created := opts.timestamp,
            modified := opts.timestamp,
            author := jsOrStr opts.content.author (str (r"System")),
            status := str (r"draft") },
        version := 1,
        tags := opts.content.tags.getD [],
        analysis := false }

/-- The update object of `updateDocument`: spreading it over the content
record replaces whichever of the two content fields it carries. -/
structure ContentPatch where
  title : Option Str
  sections : Option (List (Str × DocSection))
deriving Repr

/-- Source `updateDocument`: merge the updates into the content, refresh
the modified instant, bump the version. -/
def updateDocument (now : Nat) (document : Document) (updates : ContentPatch) : Document :=
  { document with
    content :=
      { title := updates.title.getD document.content.title,
        sections := updates.sections.getD document.content.sections },
    metadata := { document.metadata with modified := now },
    version := document.version + 1 }

/-
Case manager and facade, the parts of them the claims touch.
Case fields that no modelled operation reads are omitted.
-/

structure Case where
  id : Str
  name : Str
  status : Str
  documents : List Str
  modifiedAt : Nat
deriving DecidableEq, Repr

/-- JS Map.prototype.set on an association list: replace the entry with
the key or append a fresh one. -/
def mapSet {α : Type} : List (Str × α) → Str → α → List (Str × α)
  | [], k, v => [(k, v)]
  | kv :: rest, k, v => if kv.1 = k then (k, v) :: rest else kv :: mapSet rest k v

/-- Source `addDocumentToCase` of the case manager: a missing case
throws; a duplicate document id is left alone; otherwise the id is pushed
and the modified instant refreshed. -/
def addDocumentToCase (cases : List (Str × Case)) (now : Nat) (caseId documentId : Str) :
    Except Str (List (Str × Case)) :=
  match lookupA cases caseId with
  | none => Except.error (str (r"Case not found"))
  | some caseObj =>
    if documentId ∈ caseObj.documents then Except.ok cases
    else Except.ok (mapSet cases caseId
      { caseObj with documents := caseObj.documents ++ [documentId], modifiedAt := now })

/-- The facade state: its document map and the case manager's case
map. -/
structure MgrState where
  documents : List (Str × Document)
  cases : List (Str × Case)
deriving Repr

/-- Source `createDocument` of the facade: generate, store, then link to
the case when one was named.  A throw anywhere leaves the state reached
so far paired with the error, exactly as the JS exception propagates
after any mutations already performed. -/
def createDocument (st : MgrState) (newId : Str) (now : Nat)
    (caseId : Option Str) (documentType : Option Str) (content : ContentInput) :
    MgrState × Except Str Document :=
  match generate newId
      { caseId := caseId, documentType := documentType, content := content, timestamp := now } with
  | Except.error e => (st, Except.error e)
  | Except.ok document =>
    let st1 : MgrState := { st with documents := mapSet st.documents document.id document }
    match caseId with
    | none => (st1, Except.ok document)
    | some cid =>
      match addDocumentToCase st1.cases now cid document.id with
      | Except.error e => (st1, Except.error e)
      | Except.ok cases2 => ({ st1 with cases := cases2 }, Except.ok document)

/-
Spec-side definitions: restatements in the words of the spec, used to
compare against the source translations above, plus concrete documents
used as test inputs.
-/

/-- The tokens of a document in comparison: the whitespace split of the
lower-cased flattened text. -/
def tokensOf (d : Document) : List Str :=
  splitRuns Char.isWhitespace (lowerS (extractAllText d))

/-- The number of distinct tokens of a document's flattened text. -/
def distinctTokenCount (d : Document) : Nat :=
  (dedupFirst [] (tokensOf d)).length

/-- Follows the claim's words for the sentiment sub-analysis: the number
of occurrences of a word as a case-insensitive substring, counting every
start position.  The source instead counts each indicator word at most
once, which is what claim C2 is measured against. -/
def specSubstrOccurrences : Str → Str → Nat
  | [], _ => 0
  | c :: cs, pat =>
    (if startsWithStr (c :: cs) pat then 1 else 0) + specSubstrOccurrences cs pat

/-- The key-point matches in scan order, written as one flat traversal:
sentence-major, then category order, then keyword order. -/
def keyPointMatches (d : Document) : List KeyPoint :=
  (splitOnPred (fun c => c == '.') (extractAllText d)).flatMap (fun sentence =>
    legalKeywords.flatMap (fun ck =>
      ck.2.flatMap (fun keyword =>
        if hasSubstr (lowerS sentence) keyword then
          [{ category := ck.1, text := trimStr sentence, importance := str (r"high") }]
        else [])))

/-- The unsorted legal-term table in fixed-list order: one entry per term
contained in the lower-cased text, carrying the word-boundary occurrence
count. -/
def termHits (d : Document) : List TermCount :=
  commonLegalTerms.flatMap (fun term =>
    if hasSubstr (lowerS (extractAllText d)) term then
      [{ term := term, occurrences := countOccurrences (lowerS (extractAllText d)) term }]
    else [])

/-- The position of a term in the fixed legal-term list. -/
def rankTerm (t : Str) : Nat :=
  commonLegalTerms.findIdx (fun u => u == t)

/-- Earlier fixed-list position. -/
def rankLt (a b : TermCount) : Prop := rankTerm a.term < rankTerm b.term

/-- Descending occurrence order refined on ties by a secondary
relation. -/
abbrev descLift (Q : TermCount → TermCount → Prop) (a b : TermCount) : Prop :=
  b.occurrences < a.occurrences ∨ (a.occurrences = b.occurrences ∧ Q a b)

/-- Sorted descending by occurrence count, ties in fixed-list order. -/
def descStable : TermCount → TermCount → Prop := descLift rankLt

/-- A document with the given title and sections and otherwise neutral
fields, used to build concrete test inputs. -/
def mkDoc (title : Str) (sections : List (Str × DocSection)) : Document :=
  { id := str (r"doc-1"),
    name := str (r"doc"),
    type := str (r"contract"),
    caseId := none,
    template := { title := [], sections := [] },
    content := { title := title, sections := sections },
    metadata := { created := 0, modified := 0, author := str (r"System"), status := str (r"draft") },
    version := 1,
    tags := [],
    analysis := false }

/-- Flattened text subcontract: the term contract occurs as a substring
but never as a whole word. -/
def subDoc : Document := mkDoc (str (r"subcontract")) []

/-- Flattened text with two occurrences of the positive word agree. -/
def agreeDoc : Document := mkDoc (str (r"agree agree")) []

/-- A minimal document for determinism tests. -/
def tinyDoc : Document := mkDoc (str (r"a")) []

/-- The memo generated with no content overrides at instant 0. -/
def memoDoc : Document :=
  match generate (str (r"m1"))
      { caseId := none, documentType := some (str (r"memo")),
        content := emptyContent, timestamp := 0 } with
  | Except.ok d => d
  | Except.error _ => default

/-
Helper lemmas.
-/

/-- A fold that only appends to its accumulator is the accumulator
followed by the concatenation of the appended pieces. -/
theorem foldl_append_flatMap {α β : Type} (g : α → List β) :
    ∀ (l : List α) (acc : List β),
      l.foldl (fun a x => a ++ g x) acc = acc ++ l.flatMap g
  | [], acc => by simp
  | x :: xs, acc => by
    simp only [List.foldl_cons, List.flatMap_cons]
    rw [foldl_append_flatMap g xs, List.append_assoc]

theorem keywordHits_eq (category : Str) (keywords : List Str) (sentence : Str) :
    keywordHits category keywords sentence =
      keywords.flatMap (fun keyword =>
        if hasSubstr (lowerS sentence) keyword then
          [{ category := category, text := trimStr sentence, importance := str (r"high") }]
        else []) := by
  unfold keywordHits
  rw [foldl_append_flatMap]
  simp

theorem sentenceHits_eq (sentence : Str) :
    sentenceHits sentence =
      legalKeywords.flatMap (fun ck => keywordHits ck.1 ck.2 sentence) := by
  unfold sentenceHits
  rw [foldl_append_flatMap]
  simp

theorem extractKeyPoints_eq (d : Document) :
    extractKeyPoints d = (keyPointMatches d).take 10 := by
  unfold extractKeyPoints keyPointMatches
  simp only [foldl_append_flatMap, List.nil_append]
  apply congrArg (List.take 10)
  apply List.flatMap_congr
  intro sentence _
  rw [sentenceHits_eq]
  apply List.flatMap_congr
  intro ck _
  rw [keywordHits_eq]

theorem extractLegalTerms_eq (d : Document) :
    extractLegalTerms d = sortTC (termHits d) := by
  unfold extractLegalTerms termHits
  simp only [foldl_append_flatMap, List.nil_append]

theorem mem_dedupFirst (x : Str) (seen l : List Str) :
    x ∈ dedupFirst seen l ↔ x ∈ l ∧ x ∉ seen := by
  induction l generalizing seen with
  | nil => simp [dedupFirst]
  | cons y ys ih =>
    simp only [dedupFirst]
    by_cases h : y ∈ seen
    · simp only [h, if_true, ih, List.mem_cons]
      constructor
      · rintro ⟨hx, hs⟩
        exact ⟨Or.inr hx, hs⟩
      · rintro ⟨hor, hs⟩
        rcases hor with rfl | hx
        · exact absurd h hs
        · exact ⟨hx, hs⟩
    · simp only [h, if_false, List.mem_cons, ih]
      constructor
      · rintro (rfl | ⟨hx, hs⟩)
        · exact ⟨Or.inl rfl, h⟩
        · refine ⟨Or.inr hx, ?_⟩
          intro hxs
          exact hs (Or.inr hxs)
      · rintro ⟨hor, hs⟩
        by_cases hxy : x = y
        · exact Or.inl hxy
        · rcases hor with h1 | hx
          · exact Or.inl h1
          · exact Or.inr ⟨hx, fun hm => hm.elim hxy hs⟩

theorem nodup_dedupFirst (seen l : List Str) : (dedupFirst seen l).Nodup := by
  induction l generalizing seen with
  | nil => simp [dedupFirst]
  | cons y ys ih =>
    simp only [dedupFirst]
    by_cases h : y ∈ seen
    · simpa [h] using ih seen
    · simp only [h, if_false, List.nodup_cons]
      refine ⟨?_, ih (y :: seen)⟩
      intro hy
      rw [mem_dedupFirst] at hy
      exact hy.2 (List.mem_cons_self y seen)

theorem mem_insertTC (y x : TermCount) (l : List TermCount) :
    y ∈ insertTC x l ↔ y = x ∨ y ∈ l := by
  induction l with
  | nil => simp [insertTC]
  | cons z zs ih =>
    unfold insertTC
    split
    · simp only [List.mem_cons, ih]
      tauto
    · simp [List.mem_cons]

theorem mem_sortTC (y : TermCount) (l : List TermCount) :
    y ∈ sortTC l ↔ y ∈ l := by
  induction l with
  | nil => simp [sortTC]
  | cons x xs ih =>
    unfold sortTC
    rw [mem_insertTC]
    simp [ih]

theorem pairwise_insertTC {Q : TermCount → TermCount → Prop} (x : TermCount) :
    ∀ l : List TermCount, l.Pairwise (descLift Q) → (∀ y ∈ l, Q x y) →
      (insertTC x l).Pairwise (descLift Q) := by
  intro l
  induction l with
  | nil =>
    intro _ _
    simp [insertTC]
  | cons y ys ih =>
    intro hp hq
    rw [List.pairwise_cons] at hp
    obtain ⟨hy, hys⟩ := hp
    unfold insertTC
    split
    · rename_i hlt
      rw [List.pairwise_cons]
      constructor
      · intro z hz
        rw [mem_insertTC] at hz
        rcases hz with rfl | hz
        · exact Or.inl hlt
        · exact hy z hz
      · exact ih hys (fun z hz => hq z (List.mem_cons_of_mem _ hz))
    · rename_i hge
      push_neg at hge
      rw [List.pairwise_cons]
      constructor
      · intro z hz
        rcases List.mem_cons.mp hz with rfl | hz2
        · rcases lt_or_eq_of_le hge with h1 | h1
          · exact Or.inl h1
          · exact Or.inr ⟨h1.symm, hq z (List.mem_cons_self _ _)⟩
        · have hyz := hy z hz2
          have hzle : z.occurrences ≤ y.occurrences := by
            rcases hyz with h2 | h2
            · exact le_of_lt h2
            · exact le_of_eq h2.1.symm
          rcases lt_or_eq_of_le (le_trans hzle hge) with h3 | h3
          · exact Or.inl h3
          · exact Or.inr ⟨h3.symm, hq z (List.mem_cons_of_mem _ hz2)⟩
      · exact List.pairwise_cons.mpr ⟨hy, hys⟩

theorem pairwise_sortTC {Q : TermCount → TermCount → Prop} :
    ∀ l : List TermCount, l.Pairwise Q → (sortTC l).Pairwise (descLift Q)
  | [], _ => by simp [sortTC]
  | x :: xs, h => by
    rw [List.pairwise_cons] at h
    unfold sortTC
    exact pairwise_insertTC x (sortTC xs) (pairwise_sortTC xs h.2)
      (fun y hy => h.1 y ((mem_sortTC y xs).mp hy))

theorem pairwise_flatMap_of {α β : Type} {R : α → α → Prop} {S : β → β → Prop}
    (f : α → List β) :
    ∀ l : List α, l.Pairwise R → (∀ a, (f a).Pairwise S) →
      (∀ a b, R a b → ∀ x ∈ f a, ∀ y ∈ f b, S x y) →
      (l.flatMap f).Pairwise S := by
  intro l
  induction l with
  | nil =>
    intro _ _ _
    simp
  | cons a as ih =>
    intro hp hf hrel
    rw [List.pairwise_cons] at hp
    rw [List.flatMap_cons, List.pairwise_append]
    refine ⟨hf a, ih hp.2 hf hrel, ?_⟩
    intro x hx y hy
    rw [List.mem_flatMap] at hy
    obtain ⟨b, hb, hyb⟩ := hy
    exact hrel a b (hp.1 b hb) x hx y hyb

theorem termHits_pairwise (d : Document) : (termHits d).Pairwise rankLt := by
  unfold termHits
  apply pairwise_flatMap_of _ commonLegalTerms
    (R := fun t u => rankTerm t < rankTerm u)
  · decide
  · intro a
    split
    · simp
    · simp
  · intro a b hab x hx y hy
    split at hx
    · rcases List.mem_singleton.mp hx with rfl
      split at hy
      · rcases List.mem_singleton.mp hy with rfl
        exact hab
      · exact absurd hy (List.not_mem_nil y)
    · exact absurd hx (List.not_mem_nil x)

theorem calcR_score (d : Document) :
    (calculateReadability d).score = jsRound (readingEaseOf d) := rfl

theorem calcR_difficulty (d : Document) :
    (calculateReadability d).difficulty =
      (if 80 < readingEaseOf d then str (r"Easy")
       else if 50 < readingEaseOf d then str (r"Medium")
       else if 30 < readingEaseOf d then str (r"Difficult")
       else str (r"Very Difficult")) := rfl

theorem readingEaseOf_nonneg (d : Document) : 0 ≤ readingEaseOf d :=
  le_max_left _ _

theorem readingEaseOf_le_100 (d : Document) : readingEaseOf d ≤ 100 :=
  max_le (by norm_num) (min_le_left _ _)

/-- The count of tokens common to two token lists does not depend on the
order of the two lists. -/
theorem filter_mem_length_symm (t1 t2 : List Str) :
    ((dedupFirst [] t1).filter (fun w => decide (w ∈ t2))).length
      = ((dedupFirst [] t2).filter (fun w => decide (w ∈ t1))).length := by
  apply List.Perm.length_eq
  apply (List.perm_ext_iff_of_nodup
    ((nodup_dedupFirst [] t1).filter _) ((nodup_dedupFirst [] t2).filter _)).mpr
  intro x
  simp only [List.mem_filter, mem_dedupFirst, decide_eq_true_eq]
  tauto

theorem commonWords_symm (a b : Document) :
    (findSimilarities a b).commonWords = (findSimilarities b a).commonWords := by
  show ((dedupFirst [] (splitRuns Char.isWhitespace (lowerS (extractAllText a)))).filter
      (fun w => decide (w ∈ splitRuns Char.isWhitespace (lowerS (extractAllText b))))).length
    = ((dedupFirst [] (splitRuns Char.isWhitespace (lowerS (extractAllText b)))).filter
      (fun w => decide (w ∈ splitRuns Char.isWhitespace (lowerS (extractAllText a))))).length
  exact filter_mem_length_symm _ _

/-
Claim theorems.
-/

/-- Claim C1, counterexample.  In the document whose flattened text is
subcontract, the term contract never occurs as a whole-word match, yet
the legal-terms table contains an entry for it, with occurrence count 0.
The claim says an entry is included exactly when a whole-word match is
present and that occurrences counts those matches, which would exclude
this entry. -/
theorem c1_counterexample :
    extractLegalTerms subDoc = [{ term := str (r"contract"), occurrences := 0 }]
    ∧ countOccurrences (lowerS (extractAllText subDoc)) (str (r"contract")) = 0 := by
  constructor
  · decide
  · decide

/-- Claim C1, amended: an entry is included exactly when the term occurs
as a case-insensitive substring of the flattened text (not necessarily as
a whole word); its occurrences field is the whole-word match count, which
can be 0; the table is the stable descending sort by occurrence count of
the hits taken in fixed-list order, hence sorted descending with ties in
fixed-list order. -/
theorem c1_legal_terms (d : Document) :
    extractLegalTerms d = sortTC (termHits d)
    ∧ (extractLegalTerms d).Pairwise descStable
    ∧ (∀ e ∈ extractLegalTerms d,
        e.occurrences = countOccurrences (lowerS (extractAllText d)) e.term)
    ∧ (∀ t, (∃ e ∈ extractLegalTerms d, e.term = t) ↔
        (t ∈ commonLegalTerms ∧ hasSubstr (lowerS (extractAllText d)) t = true)) := by
  refine ⟨extractLegalTerms_eq d, ?_, ?_, ?_⟩
  · rw [extractLegalTerms_eq]
    exact pairwise_sortTC (Q := rankLt) (termHits d) (termHits_pairwise d)
  · intro e he
    rw [extractLegalTerms_eq, mem_sortTC] at he
    unfold termHits at he
    rw [List.mem_flatMap] at he
    obtain ⟨u, hu, he2⟩ := he
    by_cases hc : hasSubstr (lowerS (extractAllText d)) u = true
    · rw [if_pos hc] at he2
      rcases List.mem_singleton.mp he2 with rfl
      rfl
    · rw [if_neg hc] at he2
      exact absurd he2 (List.not_mem_nil _)
  · intro t
    constructor
    · rintro ⟨e, he, rfl⟩
      rw [extractLegalTerms_eq, mem_sortTC] at he
      unfold termHits at he
      rw [List.mem_flatMap] at he
      obtain ⟨u, hu, he2⟩ := he
      by_cases hc : hasSubstr (lowerS (extractAllText d)) u = true
      · rw [if_pos hc] at he2
        rcases List.mem_singleton.mp he2 with rfl
        exact ⟨hu, hc⟩
      · rw [if_neg hc] at he2
        exact absurd he2 (List.not_mem_nil _)
    · rintro ⟨ht, hsub⟩
      refine ⟨{ term := t,
                occurrences := countOccurrences (lowerS (extractAllText d)) t }, ?_, rfl⟩
      rw [extractLegalTerms_eq, mem_sortTC]
      unfold termHits
      rw [List.mem_flatMap]
      refine ⟨t, ht, ?_⟩
      rw [if_pos hsub]
      exact List.mem_singleton_self _

/-- Claim C1 witness: the amended theorem applied to the subcontract
document and the term contract. -/
theorem c1_witness :
    ({ term := str (r"contract"), occurrences := 0 } : TermCount).occurrences
      = countOccurrences (lowerS (extractAllText subDoc))
          ({ term := str (r"contract"), occurrences := 0 } : TermCount).term
    ∧ (str (r"contract") ∈ commonLegalTerms
        ∧ hasSubstr (lowerS (extractAllText subDoc)) (str (r"contract")) = true) := by
  constructor
  · exact (c1_legal_terms subDoc).2.2.1 _ (by decide)
  · exact ((c1_legal_terms subDoc).2.2.2 (str (r"contract"))).mp
      ⟨{ term := str (r"contract"), occurrences := 0 }, by decide, rfl⟩

/-- Claim C2, counterexample.  The flattened text agree agree contains the
positive word agree twice as a substring, but the sentiment report counts
the word only once, because the source counts indicator words that are
present, not their occurrences. -/
theorem c2_counterexample :
    (analyzeSentiment agreeDoc).positiveIndicators = 1
    ∧ specSubstrOccurrences (lowerS (extractAllText agreeDoc)) (str (r"agree")) = 2 := by
  constructor
  · decide
  · decide


/-- The three-way classification of the sentiment ternary, for any pair
of counts. -/
theorem class3_iffs (p n : Nat) :
    ((if n < p then str (r"positive") else if p < n then str (r"negative")
        else str (r"neutral")) = str (r"positive") ↔ n < p)
    ∧ ((if n < p then str (r"positive") else if p < n then str (r"negative")
        else str (r"neutral")) = str (r"negative") ↔ p < n)
    ∧ ((if n < p then str (r"positive") else if p < n then str (r"negative")
        else str (r"neutral")) = str (r"neutral") ↔ p = n) := by
  have d1 : str (r"positive") ≠ str (r"negative") := by decide
  have d2 : str (r"positive") ≠ str (r"neutral") := by decide
  have d3 : str (r"negative") ≠ str (r"neutral") := by decide
  rcases Nat.lt_trichotomy n p with h | h | h
  · rw [if_pos h]
    refine ⟨?_, ?_, ?_⟩
    · simp [h]
    · constructor
      · intro he
        exact absurd he d1
      · intro hlt
        exact absurd hlt (Nat.lt_asymm h)
    · constructor
      · intro he
        exact absurd he d2
      · intro he
        omega
  · rw [if_neg (by omega : ¬ n < p), if_neg (by omega : ¬ p < n)]
    refine ⟨?_, ?_, ?_⟩
    · constructor
      · intro he
        exact absurd he.symm d2
      · intro hlt
        omega
    · constructor
      · intro he
        exact absurd he.symm d3
      · intro hlt
        omega
    · constructor
      · intro _
        omega
      · intro _
        rfl
  · rw [if_neg (Nat.lt_asymm h), if_pos h]
    refine ⟨?_, ?_, ?_⟩
    · constructor
      · intro he
        exact absurd he.symm d1
      · intro hlt
        exact absurd hlt (Nat.lt_asymm h)
    · simp [h]
    · constructor
      · intro he
        exact absurd he d3
      · intro he
        omega

/-- Claim C2, amended: positiveIndicators and negativeIndicators are the
numbers of distinct words of the two fixed five-word lists that occur at
least once as a case-insensitive substring of the flattened text, each
counted once; the overall label is positive, negative or neutral according
to which count is larger, with ties neutral. -/
theorem c2_sentiment (d : Document) :
    (analyzeSentiment d).positiveIndicators =
      (positiveWords.filter (fun w => hasSubstr (lowerS (extractAllText d)) w)).length
    ∧ (analyzeSentiment d).negativeIndicators =
      (negativeWords.filter (fun w => hasSubstr (lowerS (extractAllText d)) w)).length
    ∧ ((analyzeSentiment d).overall = str (r"positive") ↔
        (analyzeSentiment d).negativeIndicators < (analyzeSentiment d).positiveIndicators)
    ∧ ((analyzeSentiment d).overall = str (r"negative") ↔
        (analyzeSentiment d).positiveIndicators < (analyzeSentiment d).negativeIndicators)
    ∧ ((analyzeSentiment d).overall = str (r"neutral") ↔
        (analyzeSentiment d).positiveIndicators = (analyzeSentiment d).negativeIndicators) := by
  refine ⟨rfl, rfl, ?_, ?_, ?_⟩
  · exact (class3_iffs
      ((positiveWords.filter (fun w => hasSubstr (lowerS (extractAllText d)) w)).length)
      ((negativeWords.filter (fun w => hasSubstr (lowerS (extractAllText d)) w)).length)).1
  · exact (class3_iffs
      ((positiveWords.filter (fun w => hasSubstr (lowerS (extractAllText d)) w)).length)
      ((negativeWords.filter (fun w => hasSubstr (lowerS (extractAllText d)) w)).length)).2.1
  · exact (class3_iffs
      ((positiveWords.filter (fun w => hasSubstr (lowerS (extractAllText d)) w)).length)
      ((negativeWords.filter (fun w => hasSubstr (lowerS (extractAllText d)) w)).length)).2.2

/-- Claim C3, confirmed: the readability score is the clamped Flesch-style
formula rounded half-up, it always lies between 0 and 100, the reported
word and sentence counts are the lengths of the whitespace split and of
the split on sentence punctuation including empty segments, and the
difficulty label follows the unrounded clamped score with thresholds 80,
50 and 30. -/
theorem c3_readability (d : Document) :
    (calculateReadability d).score = jsRound (readingEaseOf d)
    ∧ 0 ≤ (calculateReadability d).score
    ∧ (calculateReadability d).score ≤ 100
    ∧ (calculateReadability d).wordCount = wordsOf d
    ∧ (calculateReadability d).sentenceCount = sentencesOf d
    ∧ ((calculateReadability d).difficulty = str (r"Easy") ↔ 80 < readingEaseOf d)
    ∧ ((calculateReadability d).difficulty = str (r"Medium") ↔
        (readingEaseOf d ≤ 80 ∧ 50 < readingEaseOf d))
    ∧ ((calculateReadability d).difficulty = str (r"Difficult") ↔
        (readingEaseOf d ≤ 50 ∧ 30 < readingEaseOf d))
    ∧ ((calculateReadability d).difficulty = str (r"Very Difficult") ↔
        readingEaseOf d ≤ 30) := by
  have h0 := readingEaseOf_nonneg d
  have h100 := readingEaseOf_le_100 d
  have dEM : str (r"Easy") ≠ str (r"Medium") := by decide
  have dED : str (r"Easy") ≠ str (r"Difficult") := by decide
  have dEV : str (r"Easy") ≠ str (r"Very Difficult") := by decide
  have dMD : str (r"Medium") ≠ str (r"Difficult") := by decide
  have dMV : str (r"Medium") ≠ str (r"Very Difficult") := by decide
  have dDV : str (r"Difficult") ≠ str (r"Very Difficult") := by decide
  refine ⟨calcR_score d, ?_, ?_, rfl, rfl, ?_, ?_, ?_, ?_⟩
  · rw [calcR_score]
    unfold jsRound
    rw [Int.le_floor]
    push_cast
    linarith
  · rw [calcR_score]
    unfold jsRound
    have hlt : readingEaseOf d + 1 / 2 < ((101 : ℤ) : ℚ) := by
      push_cast
      linarith
    have h2 := Int.floor_lt.mpr hlt
    omega
  · rw [calcR_difficulty]
    split_ifs with h1 h2 h3
    · simp [h1]
    · constructor
      · intro he
        exact absurd he.symm dEM
      · intro hlt
        exact absurd hlt h1
    · constructor
      · intro he
        exact absurd he.symm dED
      · intro hlt
        exact absurd hlt h1
    · constructor
      · intro he
        exact absurd he.symm dEV
      · intro hlt
        exact absurd hlt h1
  · rw [calcR_difficulty]
    split_ifs with h1 h2 h3
    · constructor
      · intro he
        exact absurd he dEM
      · rintro ⟨hle, _⟩
        linarith
    · constructor
      · intro _
        exact ⟨le_of_not_lt h1, h2⟩
      · intro _
        rfl
    · constructor
      · intro he
        exact absurd he.symm dMD
      · rintro ⟨_, hgt⟩
        exact absurd hgt h2
    · constructor
      · intro he
        exact absurd he.symm dMV
      · rintro ⟨_, hgt⟩
        exact absurd hgt h2
  · rw [calcR_difficulty]
    split_ifs with h1 h2 h3
    · constructor
      · intro he
        exact absurd he dED
      · rintro ⟨hle, _⟩
        linarith
    · constructor
      · intro he
        exact absurd he dMD
      · rintro ⟨hle, _⟩
        linarith
    · constructor
      · intro _
        exact ⟨le_of_not_lt h2, h3⟩
      · intro _
        rfl
    · constructor
      · intro he
        exact absurd he.symm dDV
      · rintro ⟨_, hgt⟩
        exact absurd hgt h3
  · rw [calcR_difficulty]
    split_ifs with h1 h2 h3
    · constructor
      · intro he
        exact absurd he dEV
      · intro hle
        linarith
    · constructor
      · intro he
        exact absurd he dMV
      · intro hle
        linarith
    · constructor
      · intro he
        exact absurd he dDV
      · intro hle
        linarith
    · constructor
      · intro _
        exact le_of_not_lt h3
      · intro _
        rfl

/-- Claim C4, counterexample.  Two analyze calls on the same unmodified
document made at different instants differ: the analyzedAt field records
the clock at each call, so the two results are not identical in all
fields. -/
theorem c4_counterexample : analyze 0 tinyDoc ≠ analyze 1 tinyDoc := by
  intro h
  have h2 := congrArg AnalysisResult.analyzedAt h
  simp only [analyze] at h2
  exact Nat.zero_ne_one h2

/-- Claim C4, amended: analyze is deterministic in every field except the
analyzedAt timestamp; two calls on the same unmodified document agree on
all other fields whatever the two call instants are. -/
theorem c4_deterministic (t1 t2 : Nat) (d : Document) :
    { analyze t1 d with analyzedAt := 0 } = { analyze t2 d with analyzedAt := 0 } := rfl

/-- Claim C5, confirmed: the memo generated with no content overrides has
every section filled with the placeholder embedding the section name, its
analysis reports the incomplete-content risk at severity high, and every
section of the structure report is flagged empty. -/
theorem c5_memo_scenario :
    (memoDoc.content.sections.all (fun kv =>
      kv.2.content == str (r"[Add ") ++ kv.1 ++ str (r" content here]"))) = true
    ∧ ({ type := str (r"incomplete_content"), severity := str (r"high"),
         description := str (r"Document contains placeholder text that needs to be filled") } : Risk)
        ∈ (analyze 0 memoDoc).risks
    ∧ ((analyze 0 memoDoc).sections.sections.all (fun s => s.isEmpty)) = true := by
  refine ⟨by decide, ?_, by decide⟩
  show _ ∈ identifyRisks memoDoc
  decide

/-- Claim C6, confirmed: the key-points list is the first 10 hits of the
scan in sentence-major order, then category order of the fixed taxonomy,
then keyword order, a hit being a sentence of the split on the period
character whose lower-casing contains the keyword as a substring; in
particular the list never has more than 10 elements. -/
theorem c6_key_points (d : Document) :
    extractKeyPoints d = (keyPointMatches d).take 10
    ∧ (extractKeyPoints d).length ≤ 10 := by
  refine ⟨extractKeyPoints_eq d, ?_⟩
  rw [extractKeyPoints_eq]
  exact List.length_take_le 10 _

/-- Claim C7, confirmed: when two documents have the same flattened text,
compare reports commonWords equal to the number of distinct tokens of the
whitespace split of the lower-cased flattened text of either document,
and both differences are zero. -/
theorem c7_compare_identical (d1 d2 : Document)
    (h : extractAllText d1 = extractAllText d2) :
    (comparDocuments d1 d2).similarities.commonWords = distinctTokenCount d1
    ∧ (comparDocuments d1 d2).similarities.commonWords = distinctTokenCount d2
    ∧ (comparDocuments d1 d2).differences.lengthDifference = 0
    ∧ (comparDocuments d1 d2).differences.wordCountDifference = 0 := by
  have hd : distinctTokenCount d2 = distinctTokenCount d1 := by
    unfold distinctTokenCount tokensOf
    rw [h]
  have h1 : (comparDocuments d1 d2).similarities.commonWords = distinctTokenCount d1 := by
    show ((dedupFirst [] (splitRuns Char.isWhitespace (lowerS (extractAllText d1)))).filter
        (fun w => decide (w ∈ splitRuns Char.isWhitespace (lowerS (extractAllText d2))))).length
      = (dedupFirst [] (splitRuns Char.isWhitespace (lowerS (extractAllText d1)))).length
    rw [← h]
    apply congrArg List.length
    apply List.filter_eq_self.mpr
    intro a ha
    rw [decide_eq_true_eq]
    exact ((mem_dedupFirst a [] _).mp ha).1
  refine ⟨h1, ?_, ?_, ?_⟩
  · rw [hd]
    exact h1
  · show (((lowerS (extractAllText d1)).length : ℤ)
        - ((lowerS (extractAllText d2)).length : ℤ)).natAbs = 0
    rw [h]
    simp
  · show ((((splitRuns Char.isWhitespace (lowerS (extractAllText d1))).length : ℤ))
        - (((splitRuns Char.isWhitespace (lowerS (extractAllText d2))).length : ℤ))).natAbs = 0
    rw [h]
    simp

/-- Claim C7 witness: the theorem applied to two identical tiny
documents. -/
theorem c7_witness :
    (comparDocuments tinyDoc tinyDoc).similarities.commonWords = distinctTokenCount tinyDoc
    ∧ (comparDocuments tinyDoc tinyDoc).similarities.commonWords = distinctTokenCount tinyDoc
    ∧ (comparDocuments tinyDoc tinyDoc).differences.lengthDifference = 0
    ∧ (comparDocuments tinyDoc tinyDoc).differences.wordCountDifference = 0 :=
  c7_compare_identical tinyDoc tinyDoc rfl

/-- Claim C8, confirmed: creating a document with a type that is not a key
of the template registry reports the unknown type and returns the facade
state unchanged, so no document is stored and no case gains a document
reference. -/
theorem c8_unknown_type (st : MgrState) (newId : Str) (now : Nat)
    (caseId : Option Str) (content : ContentInput) (ty : Str)
    (h : lookupA templates ty = none) :
    createDocument st newId now caseId (some ty) content =
      (st, Except.error (str (r"Unknown document type: ") ++ ty)) := by
  unfold createDocument generate
  simp [h]

/-- Claim C8 witness: the theorem applied to the empty facade state and
the unknown type widget. -/
theorem c8_witness :
    createDocument { documents := [], cases := [] } (str (r"id-9")) 0 none
        (some (str (r"widget"))) emptyContent =
      ({ documents := [], cases := [] },
        Except.error (str (r"Unknown document type: ") ++ str (r"widget"))) :=
  c8_unknown_type { documents := [], cases := [] } (str (r"id-9")) 0 none emptyContent
    (str (r"widget")) (by decide)

/-- Claim C9, confirmed: the update operation bumps the version by exactly
one and sets the modified instant to the update time, and it leaves the
document id and the created instant unchanged, for every document and
every update value. -/
theorem c9_update_frame (now : Nat) (d : Document) (u : ContentPatch) :
    (updateDocument now d u).version = d.version + 1
    ∧ (updateDocument now d u).metadata.modified = now
    ∧ (updateDocument now d u).id = d.id
    ∧ (updateDocument now d u).metadata.created = d.metadata.created :=
  ⟨rfl, rfl, rfl, rfl⟩

/-- Claim C10, confirmed: comparing two documents in either order yields
the same commonWords count, the same length difference, the same
word-count difference, and exactly swapped structural section counts. -/
theorem c10_compare_symmetric (a b : Document) :
    (comparDocuments a b).similarities.commonWords
      = (comparDocuments b a).similarities.commonWords
    ∧ (comparDocuments a b).differences.lengthDifference
      = (comparDocuments b a).differences.lengthDifference
    ∧ (comparDocuments a b).differences.wordCountDifference
      = (comparDocuments b a).differences.wordCountDifference
    ∧ (comparDocuments a b).structuralDifferences.doc1Sections
      = (comparDocuments b a).structuralDifferences.doc2Sections
    ∧ (comparDocuments a b).structuralDifferences.doc2Sections
      = (comparDocuments b a).structuralDifferences.doc1Sections := by
  refine ⟨commonWords_symm a b, ?_, ?_, rfl, rfl⟩
  · show (((lowerS (extractAllText a)).length : ℤ)
        - ((lowerS (extractAllText b)).length : ℤ)).natAbs
      = (((lowerS (extractAllText b)).length : ℤ)
        - ((lowerS (extractAllText a)).length : ℤ)).natAbs
    omega
  · show ((((splitRuns Char.isWhitespace (lowerS (extractAllText a))).length : ℤ))
        - (((splitRuns Char.isWhitespace (lowerS (extractAllText b))).length : ℤ))).natAbs
      = ((((splitRuns Char.isWhitespace (lowerS (extractAllText b))).length : ℤ))
        - (((splitRuns Char.isWhitespace (lowerS (extractAllText a))).length : ℤ))).natAbs
    omega
